import Mathlib

/-!
# tty_uart: serial line configuration and control

A shallow embedding of the line-configuration, modem-control and file-sending
functions of `src/tty_uart.c` (and of `libtty_setopt` of `src/tty_uart_V1.2.c`), with
theorems about the settings they hand to the terminal driver and the results they
give.

The terminal driver is modelled as a device that stores what is written to it and
hands it back on a query; after a `tcsetattr`, which carries no speed, it derives
both speed fields from the baud selectors of the control flags, as the Linux driver
does. Every call to it is recorded, and each call may fail.
Flag words are natural numbers below `2 ^ 32` (`tcflag_t` is a 32-bit unsigned
integer), `int` and `char` arguments are integers.
-/

set_option linter.unusedVariables false

namespace TtyUart

/-! ## Constants of the terminal interface

The values are those of the Linux generic `termbits.h`, `ioctls.h` and `fcntl.h`,
which the source includes through `<asm/termios.h>`, `<termios.h>` and `<fcntl.h>`. -/

/-- Character-size mask of `c_cflag` (octal 060). -/
abbrev CSIZE : Nat := 0x30
/-- 5-bit characters. -/
abbrev CS5 : Nat := 0x00
/-- 6-bit characters (octal 020). -/
abbrev CS6 : Nat := 0x10
/-- 7-bit characters (octal 040). -/
abbrev CS7 : Nat := 0x20
/-- 8-bit characters (octal 060). -/
abbrev CS8 : Nat := 0x30
/-- Two stop bits (octal 0100). -/
abbrev CSTOPB : Nat := 0x40
/-- Receiver enabled (octal 0200). -/
abbrev CREAD : Nat := 0x80
/-- Parity enabled (octal 0400). -/
abbrev PARENB : Nat := 0x100
/-- Odd parity (octal 01000). -/
abbrev PARODD : Nat := 0x200
/-- Ignore modem status lines (octal 04000). -/
abbrev CLOCAL : Nat := 0x800
/-- Baud-rate selector mask of `c_cflag` (octal 010017). -/
abbrev CBAUD : Nat := 0x100F
/-- Baud rate given by the `c_ispeed` and `c_ospeed` fields (octal 010000). -/
abbrev BOTHER : Nat := 0x1000
/-- Hardware RTS/CTS flow control (octal 020000000000). -/
abbrev CRTSCTS : Nat := 0x80000000
/-- Input parity checking, a bit of `c_iflag` (octal 020). -/
abbrev INPCK : Nat := 0x10
/-- Index of the read timeout, in tenths of a second, in `c_cc`. -/
abbrev VTIME : Nat := 5
/-- Index of the minimum number of bytes of a read in `c_cc`. -/
abbrev VMIN : Nat := 6
/-- Length of `c_cc` in the C library's `struct termios`. -/
abbrev NCCS : Nat := 32
/-- Length of `c_cc` in the driver's `struct termios2`. -/
abbrev KERNEL_NCCS : Nat := 19
/-- Queue selector of `tcflush`: both the input and the output queue. -/
abbrev TCIOFLUSH : Nat := 2
/-- Action of `tcsetattr`: the change takes effect at once. -/
abbrev TCSANOW : Nat := 0
/-- Modem-control bit of the DTR line. -/
abbrev TIOCM_DTR : Nat := 0x002
/-- Modem-control bit of the RTS line. -/
abbrev TIOCM_RTS : Nat := 0x004
/-- File status flag: non-blocking mode (octal 04000). -/
abbrev O_NONBLOCK : Int := 0x800
/-- Open for reading and writing. -/
abbrev O_RDWR : Int := 0x2
/-- Do not make the device the controlling terminal (octal 0400). -/
abbrev O_NOCTTY : Int := 0x100
/-- Same bit as `O_NONBLOCK`. -/
abbrev O_NDELAY : Int := O_NONBLOCK

/-- The complement `~m` of a mask, as applied to a 32-bit unsigned flag word. -/
def bnot32 (m : Nat) : Nat := 0xFFFFFFFF ^^^ m

/-- Conversion of an `int` to a 32-bit unsigned integer (`speed_t`). -/
def toU32 (x : Int) : Nat := (x % 4294967296).toNat

/-- An unsigned 32-bit pattern read as an `int` (two's complement). -/
def toI32 (n : Nat) : Int := if n < 2147483648 then (n : Int) else (n : Int) - 4294967296

/-- The operation `x & y` on `int`. -/
def and32 (x y : Int) : Int := toI32 (toU32 x &&& toU32 y)

/-- The operation `x | y` on `int`. -/
def or32 (x y : Int) : Int := toI32 (toU32 x ||| toU32 y)

/-- The operation `~x` on `int`. -/
def not32 (x : Int) : Int := toI32 (bnot32 (toU32 x))

/-- The value of a character constant, as an `int`. -/
def chr (c : Char) : Int := (c.toNat : Int)

/-! ## Data model -/

/-- The C library's `struct termios`, the fields the driver takes from it. -/
structure termios where
  c_iflag : Nat
  c_oflag : Nat
  c_cflag : Nat
  c_lflag : Nat
  c_line : Nat
  c_cc : List Nat
deriving DecidableEq, Repr

/-- The driver's `struct termios2`: the line settings with explicit speeds. -/
structure termios2 where
  c_iflag : Nat
  c_oflag : Nat
  c_cflag : Nat
  c_lflag : Nat
  c_line : Nat
  c_cc : List Nat
  c_ispeed : Nat
  c_ospeed : Nat
deriving DecidableEq, Repr

/-- A structure after `bzero`: every field is zero. -/
def termios.bzero : termios :=
  { c_iflag := 0, c_oflag := 0, c_cflag := 0, c_lflag := 0, c_line := 0,
    c_cc := List.replicate NCCS 0 }

/-- A call issued to the device, with the arguments that matter. -/
inductive Call where
  | tcgetattr (fd : Int)
  | tcflush (fd : Int) (queue : Nat)
  | tcsetattr (fd : Int) (actions : Nat) (t : termios)
  | TCGETS2 (fd : Int)
  | TCSETS2 (fd : Int) (t : termios2)
  | TIOCMSET (fd : Int) (bits : Nat)
deriving DecidableEq, Repr

/-- A diagnostic printed by the program. -/
inductive Out where
  | perror (s : String)
  | stderr (s : String)
  | stdout (s : String)
  | printf (fmt : String) (args : List Int)
deriving DecidableEq, Repr

/-- The device and the program's surroundings: the line settings and modem-control
word the driver holds, which calls fail (`fails n` tells whether the call issued
after `n` earlier ones fails), the calls issued so far and the diagnostics printed
so far, oldest first. -/
structure Tty where
  line : termios2
  modem : Nat
  fails : Nat → Bool
  log : List Call
  out : List Out

/-- Whether the next call to the device fails. -/
def Tty.failing (d : Tty) : Bool := d.fails d.log.length

/-- Record a call. -/
def Tty.record (d : Tty) (c : Call) : Tty := { d with log := d.log ++ [c] }

/-- Print a diagnostic. -/
def Tty.print (d : Tty) (o : Out) : Tty := { d with out := d.out ++ [o] }

/-- The settings the driver holds, as `tcgetattr` reports them. -/
def termios2.toTermios (k : termios2) : termios :=
  { c_iflag := k.c_iflag, c_oflag := k.c_oflag, c_cflag := k.c_cflag, c_lflag := k.c_lflag,
    c_line := k.c_line,
    c_cc := k.c_cc.take KERNEL_NCCS ++ List.replicate (NCCS - KERNEL_NCCS) 0 }

/-- Library call `tcgetattr(fd, &t)`: on success `t` receives the settings held by
the driver and the result is 0; on failure `t` is untouched and the result is -1. -/
def tcgetattr (d : Tty) (fd : Int) (t : termios) : Int × termios × Tty :=
  let failed := d.failing
  let d := d.record (Call.tcgetattr fd)
  if failed then (-1, t, d) else (0, d.line.toTermios, d)

/-- Library call `tcflush(fd, queue)`: discards queued data; the line settings are
untouched. -/
def tcflush (d : Tty) (fd : Int) (queue : Nat) : Int × Tty :=
  let failed := d.failing
  let d := d.record (Call.tcflush fd queue)
  if failed then (-1, d) else (0, d)

/-- Extended-rate bit of the baud selector (octal 010000). -/
abbrev CBAUDEX : Nat := 0x1000

/-- Position of the input-rate selector in `c_cflag`. -/
abbrev IBSHIFT : Nat := 16

/-- The rates of the selectors B0, B50, ..., B4000000, in the driver's order. -/
def baud_table : List Nat :=
  [0, 50, 75, 110, 134, 150, 200, 300, 600, 1200, 1800, 2400, 4800, 9600, 19200, 38400,
    57600, 115200, 230400, 460800, 500000, 576000, 921600, 1000000, 1152000, 1500000,
    2000000, 2500000, 3000000, 3500000, 4000000]

/-- The output rate the Linux driver derives from a control-flag word
(`tty_termios_baud_rate`): the rate of the baud selector, or the stored output speed
when the selector is BOTHER. -/
def tty_termios_baud_rate (c_cflag c_ospeed : Nat) : Nat :=
  let cbaud := c_cflag &&& CBAUD
  if cbaud = BOTHER then c_ospeed else
  let cbaud := if cbaud &&& CBAUDEX ≠ 0 then (cbaud &&& bnot32 CBAUDEX) + 15 else cbaud
  baud_table.getD cbaud 0

/-- The input rate the Linux driver derives from a control-flag word
(`tty_termios_input_baud_rate`): the output rate when the input selector is B0, the
stored input speed when it is BOTHER, else the rate of the input selector. -/
def tty_termios_input_baud_rate (c_cflag c_ispeed c_ospeed : Nat) : Nat :=
  let cbaud := (c_cflag >>> IBSHIFT) &&& CBAUD
  if cbaud = 0 then tty_termios_baud_rate c_cflag c_ospeed else
  if cbaud = BOTHER then c_ispeed else
  let cbaud := if cbaud &&& CBAUDEX ≠ 0 then (cbaud &&& bnot32 CBAUDEX) + 15 else cbaud
  baud_table.getD cbaud 0

/-- Library call `tcsetattr(fd, actions, &t)`: on success the driver stores the flag
words, the line discipline and the control characters of `t`; a `struct termios`
carries no speed to the driver, which derives both speed fields anew from the baud
selectors of the `c_cflag` it is handed. -/
def tcsetattr (d : Tty) (fd : Int) (actions : Nat) (t : termios) : Int × Tty :=
  let failed := d.failing
  let d := d.record (Call.tcsetattr fd actions t)
  if failed then (-1, d)
  else (0, { d with line := { d.line with
                c_iflag := t.c_iflag, c_oflag := t.c_oflag, c_cflag := t.c_cflag,
                c_lflag := t.c_lflag, c_line := t.c_line,
                c_cc := t.c_cc.take KERNEL_NCCS,
                c_ispeed := tty_termios_input_baud_rate t.c_cflag d.line.c_ispeed
                  d.line.c_ospeed,
                c_ospeed := tty_termios_baud_rate t.c_cflag d.line.c_ospeed } })

/-- Device call `ioctl(fd, TCGETS2, &t)`. -/
def ioctl_TCGETS2 (d : Tty) (fd : Int) (t : termios2) : Int × termios2 × Tty :=
  let failed := d.failing
  let d := d.record (Call.TCGETS2 fd)
  if failed then (-1, t, d) else (0, d.line, d)

/-- Device call `ioctl(fd, TCSETS2, &t)`: on success the driver stores `t`. -/
def ioctl_TCSETS2 (d : Tty) (fd : Int) (t : termios2) : Int × Tty :=
  let failed := d.failing
  let d := d.record (Call.TCSETS2 fd t)
  if failed then (-1, d) else (0, { d with line := t })

/-- Device call `ioctl(fd, TIOCMSET, &bits)`: on success the driver stores the
modem-control word. -/
def ioctl_TIOCMSET (d : Tty) (fd : Int) (bits : Nat) : Int × Tty :=
  let failed := d.failing
  let d := d.record (Call.TIOCMSET fd bits)
  if failed then (-1, d) else (0, { d with modem := bits })

/-! ## The functions of `src/tty_uart.c` -/

/-- `libtty_setcustombaudrate(fd, baudrate)`. The local `tio` is not initialised in
the source; it is read only after a successful `TCGETS2` has filled it. -/
def libtty_setcustombaudrate (d : Tty) (fd baudrate : Int) (tio : termios2) : Int × Tty :=
  let (r, tio, d) := ioctl_TCGETS2 d fd tio
  if r ≠ 0 then (-1, d.print (Out.perror "TCGETS2")) else
  let tio := { tio with c_cflag := tio.c_cflag &&& bnot32 CBAUD }
  let tio := { tio with c_cflag := tio.c_cflag ||| BOTHER }
  let tio := { tio with c_ispeed := toU32 baudrate }
  let tio := { tio with c_ospeed := toU32 baudrate }
  let (r, d) := ioctl_TCSETS2 d fd tio
  if r ≠ 0 then (-1, d.print (Out.perror "TCSETS2")) else
  let (r, tio, d) := ioctl_TCGETS2 d fd tio
  if r ≠ 0 then (-1, d.print (Out.perror "TCGETS2")) else
  (0, d)

/-- `libtty_setopt(fd, speed, databits, stopbits, parity, hardflow)`. -/
def libtty_setopt (d : Tty) (fd speed databits stopbits parity hardflow : Int)
    (tio : termios2) : Int × Tty :=
  let newtio : termios := termios.bzero
  let oldtio : termios := termios.bzero
  let (r, oldtio, d) := tcgetattr d fd oldtio
  if r ≠ 0 then (-1, d.print (Out.perror "tcgetattr")) else
  let newtio := { newtio with c_cflag := newtio.c_cflag ||| (CLOCAL ||| CREAD) }
  let newtio := { newtio with c_cflag := newtio.c_cflag &&& bnot32 CSIZE }
  /- set data bits -/
  match (if databits = 5 then some { newtio with c_cflag := newtio.c_cflag ||| CS5 }
    else if databits = 6 then some { newtio with c_cflag := newtio.c_cflag ||| CS6 }
    else if databits = 7 then some { newtio with c_cflag := newtio.c_cflag ||| CS7 }
    else if databits = 8 then some { newtio with c_cflag := newtio.c_cflag ||| CS8 }
    else none) with
  | none => (-1, d.print (Out.stderr "unsupported data size\n"))
  | some newtio =>
  /- set parity -/
  match (if parity = chr 'n' ∨ parity = chr 'N' then
      some { newtio with c_cflag := newtio.c_cflag &&& bnot32 PARENB,
                         c_iflag := newtio.c_iflag &&& bnot32 INPCK }
    else if parity = chr 'o' ∨ parity = chr 'O' then
      some { newtio with c_cflag := newtio.c_cflag ||| (PARODD ||| PARENB),
                         c_iflag := newtio.c_iflag ||| INPCK }
    else if parity = chr 'e' ∨ parity = chr 'E' then
      some { newtio with c_cflag := (newtio.c_cflag ||| PARENB) &&& bnot32 PARODD,
                         c_iflag := newtio.c_iflag ||| INPCK }
    else none) with
  | none => (-1, d.print (Out.stderr "unsupported parity\n"))
  | some newtio =>
  /- set stop bits -/
  match (if stopbits = 1 then some { newtio with c_cflag := newtio.c_cflag &&& bnot32 CSTOPB }
    else if stopbits = 2 then some { newtio with c_cflag := newtio.c_cflag ||| CSTOPB }
    else none) with
  | none => (-1, d.print (Out.perror "unsupported stop bits\n"))
  | some newtio =>
  let newtio :=
    if hardflow ≠ 0 then { newtio with c_cflag := newtio.c_cflag ||| CRTSCTS }
    else { newtio with c_cflag := newtio.c_cflag &&& bnot32 CRTSCTS }
  let newtio := { newtio with c_cc := newtio.c_cc.set VTIME 10 }
  let newtio := { newtio with c_cc := newtio.c_cc.set VMIN 0 }
  let (_, d) := tcflush d fd TCIOFLUSH
  let (r, d) := tcsetattr d fd TCSANOW newtio
  if r ≠ 0 then (-1, d.print (Out.perror "tcsetattr")) else
  /- set tty speed -/
  let (r, d) := libtty_setcustombaudrate d fd speed tio
  if r ≠ 0 then (-1, d.print (Out.perror "setbaudrate")) else
  (0, d)

/-- `libtty_tiocmset(fd, bDTR, bRTS)`. -/
def libtty_tiocmset (d : Tty) (fd bDTR bRTS : Int) : Int × Tty :=
  let controlbits : Nat := 0
  let controlbits := if bDTR ≠ 0 then controlbits ||| TIOCM_DTR else controlbits
  let controlbits := if bRTS ≠ 0 then controlbits ||| TIOCM_RTS else controlbits
  ioctl_TIOCMSET d fd controlbits

/-! ## Opening the device -/

/-- The operating system as `libtty_open` sees it: the results of its calls. -/
structure Sys where
  sys_open : String → Int → Int
  fcntl_getfl : Int → Int
  fcntl_setfl : Int → Int → Int
  sys_isatty : Int → Int

/-- A call issued by `libtty_open`. -/
inductive SysCall where
  | sys_open (path : String) (flags : Int)
  | F_GETFL (fd : Int)
  | F_SETFL (fd : Int) (flags : Int)
  | isatty (fd : Int)
deriving DecidableEq, Repr

/-- The result of `libtty_open`, the calls it issued and what it printed. -/
structure Opened where
  ret : Int
  calls : List SysCall
  out : List Out
deriving DecidableEq, Repr

/-- `libtty_open(devname)`. -/
def libtty_open (s : Sys) (devname : String) : Opened :=
  let fd := s.sys_open devname (or32 (or32 O_RDWR O_NOCTTY) O_NDELAY)
  let calls := [SysCall.sys_open devname (or32 (or32 O_RDWR O_NOCTTY) O_NDELAY)]
  let flags : Int := 0
  if fd < 0 then ⟨-1, calls, [Out.perror "open device failed"]⟩ else
  let flags := s.fcntl_getfl fd
  let calls := calls ++ [SysCall.F_GETFL fd]
  let flags := and32 flags (not32 O_NONBLOCK)
  let r := s.fcntl_setfl fd flags
  let calls := calls ++ [SysCall.F_SETFL fd flags]
  if r < 0 then ⟨-1, calls, [Out.stdout "fcntl failed.\n"]⟩ else
  let r := s.sys_isatty fd
  let calls := calls ++ [SysCall.isatty fd]
  if r = 0 then ⟨-1, calls, [Out.stdout "not tty device.\n"]⟩
  else ⟨fd, calls, [Out.stdout "tty device test ok.\n"]⟩

/-! ## `libtty_setopt` of `src/tty_uart_V1.2.c` -/

namespace V1_2

/-- `libtty_setopt` of `src/tty_uart_V1.2.c`; `libtty_setcustombaudrate` is the same
in both files. -/
def libtty_setopt (d : Tty) (fd speed databits stopbits parity hardflow : Int)
    (tio : termios2) : Int × Tty :=
  let newtio : termios := termios.bzero
  let oldtio : termios := termios.bzero
  let (r, oldtio, d) := tcgetattr d fd oldtio
  if r ≠ 0 then (-1, d.print (Out.perror "tcgetattr")) else
  let newtio := { newtio with c_cflag := newtio.c_cflag ||| (CLOCAL ||| CREAD) }
  let newtio := { newtio with c_cflag := newtio.c_cflag &&& bnot32 CSIZE }
  /- set data bits -/
  match (if databits = 5 then some { newtio with c_cflag := newtio.c_cflag ||| CS5 }
    else if databits = 6 then some { newtio with c_cflag := newtio.c_cflag ||| CS6 }
    else if databits = 7 then some { newtio with c_cflag := newtio.c_cflag ||| CS7 }
    else if databits = 8 then some { newtio with c_cflag := newtio.c_cflag ||| CS8 }
    else none) with
  | none => (-1, d.print (Out.stderr "unsupported data size\n"))
  | some newtio =>
  /- set parity -/
  match (if parity = chr 'n' ∨ parity = chr 'N' then
      some { newtio with c_cflag := newtio.c_cflag &&& bnot32 PARENB,
                         c_iflag := newtio.c_iflag &&& bnot32 INPCK }
    else if parity = chr 'o' ∨ parity = chr 'O' then
      some { newtio with c_cflag := newtio.c_cflag ||| (PARODD ||| PARENB),
                         c_iflag := newtio.c_iflag ||| INPCK }
    else if parity = chr 'e' ∨ parity = chr 'E' then
      some { newtio with c_cflag := (newtio.c_cflag ||| PARENB) &&& bnot32 PARODD,
                         c_iflag := newtio.c_iflag ||| INPCK }
    else none) with
  | none => (-1, d.print (Out.stderr "unsupported parity\n"))
  | some newtio =>
  /- set stop bits -/
  match (if stopbits = 1 then some { newtio with c_cflag := newtio.c_cflag &&& bnot32 CSTOPB }
    else if stopbits = 2 then some { newtio with c_cflag := newtio.c_cflag ||| CSTOPB }
    else none) with
  | none => (-1, d.print (Out.perror "unsupported stop bits\n"))
  | some newtio =>
  let newtio :=
    if hardflow ≠ 0 then { newtio with c_cflag := newtio.c_cflag ||| CRTSCTS }
    else { newtio with c_cflag := newtio.c_cflag &&& bnot32 CRTSCTS }
  let newtio := { newtio with c_cc := newtio.c_cc.set VTIME 20 }
  let newtio := { newtio with c_cc := newtio.c_cc.set VMIN 128 }
  let (_, d) := tcflush d fd TCIOFLUSH
  let (r, d) := tcsetattr d fd TCSANOW newtio
  if r ≠ 0 then (-1, d.print (Out.perror "tcsetattr")) else
  /- set tty speed -/
  let (r, d) := libtty_setcustombaudrate d fd speed tio
  if r ≠ 0 then (-1, d.print (Out.perror "setbaudrate")) else
  (0, d)

end V1_2

/-! ## Reading the results -/

/-- The calls issued to the device between the state `d` and the later state `e`. -/
def issued (d e : Tty) : List Call := e.log.drop d.log.length

/-- The diagnostics printed between the state `d` and the later state `e`. -/
def printed (d e : Tty) : List Out := e.out.drop d.out.length

/-- The settings handed to `tcsetattr` in a list of calls, oldest first. -/
def applied : List Call → List termios
  | [] => []
  | Call.tcsetattr _ _ t :: cs => t :: applied cs
  | _ :: cs => applied cs

/-- The character width a control-flag word stands for. -/
def widthOf (cflag : Nat) : Int :=
  if cflag &&& CSIZE = CS5 then 5
  else if cflag &&& CSIZE = CS6 then 6
  else if cflag &&& CSIZE = CS7 then 7
  else 8

/-- A device none of whose calls fails, holding the settings `k`. -/
def Tty.healthy (k : termios2) : Tty :=
  { line := k, modem := 0, fails := fun _ => false, log := [], out := [] }

/-- All-zero line settings. -/
def termios2.zero : termios2 :=
  { c_iflag := 0, c_oflag := 0, c_cflag := 0, c_lflag := 0, c_line := 0,
    c_cc := List.replicate KERNEL_NCCS 0, c_ispeed := 0, c_ospeed := 0 }

/-- The data-bit widths `libtty_setopt` accepts. -/
abbrev validDatabits (databits : Int) : Prop :=
  databits = 5 ∨ databits = 6 ∨ databits = 7 ∨ databits = 8

/-- The parity characters `libtty_setopt` accepts. -/
abbrev validParity (parity : Int) : Prop :=
  parity = chr 'n' ∨ parity = chr 'N' ∨ parity = chr 'o' ∨ parity = chr 'O' ∨
    parity = chr 'e' ∨ parity = chr 'E'

/-- The stop-bit counts `libtty_setopt` accepts. -/
abbrev validStopbits (stopbits : Int) : Prop :=
  stopbits = 1 ∨ stopbits = 2

/-- The control-flag word the specification describes for a valid configuration:
local mode and receiver enabled, the character-size constant of the width, the
parity bits of the rule table, the two-stop-bit flag and the RTS/CTS flag. -/
def expectedCflag (databits stopbits parity hardflow : Int) : Nat :=
  CLOCAL ||| CREAD
    ||| (if databits = 5 then CS5 else if databits = 6 then CS6
          else if databits = 7 then CS7 else CS8)
    ||| (if parity = chr 'o' ∨ parity = chr 'O' then PARENB ||| PARODD
          else if parity = chr 'e' ∨ parity = chr 'E' then PARENB else 0)
    ||| (if stopbits = 2 then CSTOPB else 0)
    ||| (if hardflow ≠ 0 then CRTSCTS else 0)

/-- The input-flag word the specification describes for a valid configuration:
input parity checking unless the parity is None. -/
def expectedIflag (parity : Int) : Nat :=
  if parity = chr 'n' ∨ parity = chr 'N' then 0 else INPCK

/-- The settings the specification describes for a valid configuration, with the
read timeout `vtime` and the minimum byte count `vmin`. -/
def expectedSettings (databits stopbits parity hardflow : Int) (vtime vmin : Nat) : termios :=
  { c_iflag := expectedIflag parity, c_oflag := 0,
    c_cflag := expectedCflag databits stopbits parity hardflow,
    c_lflag := 0, c_line := 0,
    c_cc := ((List.replicate NCCS 0).set VTIME vtime).set VMIN vmin }

/-- The line settings the driver holds once `t` has been applied and the custom
baud rate `speed` set. -/
def finalLine (t : termios) (speed : Int) : termios2 :=
  { c_iflag := t.c_iflag, c_oflag := t.c_oflag,
    c_cflag := (t.c_cflag &&& bnot32 CBAUD) ||| BOTHER,
    c_lflag := t.c_lflag, c_line := t.c_line, c_cc := t.c_cc.take KERNEL_NCCS,
    c_ispeed := toU32 speed, c_ospeed := toU32 speed }

/-- A system on which every path opens as descriptor 3, a regular file: the status
flags read are O_RDWR with O_NONBLOCK, F_SETFL succeeds and `isatty` gives 0. -/
def regularFile : Sys :=
  { sys_open := fun _ _ => 3, fcntl_getfl := fun _ => 0x802, fcntl_setfl := fun _ _ => 0,
    sys_isatty := fun _ => 0 }

/-- A system on which every path opens as descriptor 3, a terminal. -/
def terminal : Sys :=
  { sys_open := fun _ _ => 3, fcntl_getfl := fun _ => 0x802, fcntl_setfl := fun _ _ => 0,
    sys_isatty := fun _ => 1 }

/-- A device holding the settings `k` whose call number `n` fails when `bad n`. -/
def Tty.faulty (k : termios2) (bad : Nat → Bool) : Tty :=
  { line := k, modem := 0, fails := bad, log := [], out := [] }

/-! ## Sending a file -/

/-- How a call of a C function ends: a `return` statement gives a value, or control
reaches the closing brace of a non-void function, which gives the caller no value. -/
inductive Ret where
  | returned (v : Int)
  | fellOff
deriving DecidableEq, Repr

/-- The surroundings of `libtty_file_send`: the bytes of the file named on standard
input (`none` when `fopen` fails) and the results of the `write` calls:
`write fd buf k` is the result of `write(fd, buf, n)` after `k` earlier writes. -/
structure SendEnv where
  file : Option (List Nat)
  write : Int → List Nat → Nat → Int

/-- The outcome of `libtty_file_send`: how it ended, the buffers it handed to
`write`, oldest first, and what it printed. -/
structure Sent where
  ret : Ret
  writes : List (List Nat)
  out : List Out
deriving DecidableEq, Repr

/-- The loop `while (1)` of `libtty_file_send`, run for at most `fuel` rounds on the
unread bytes `rest` of the file; `none` when the rounds run out. `fread` fills the
4096-byte buffer with the next bytes of the file and gives their number. The counter
`total` is only printed. -/
def file_send_loop (env : SendEnv) (fd : Int) :
    Nat → List Nat → Int → List (List Nat) → List Out → Option Sent
  | 0, _, _, _, _ => none
  | fuel + 1, rest, total, writes, out =>
    let buf := rest.take 4096
    let ret : Int := (buf.length : Int)
    if ret ≤ 0 then some ⟨Ret.returned ret, writes, out⟩ else
    let nwrite := env.write fd buf writes.length
    let writes := writes ++ [buf]
    if nwrite ≥ 0 then
      let total := total + nwrite
      file_send_loop env fd fuel (rest.drop 4096) total writes
        (out ++ [Out.printf "write total %d bytes, %d this time.\n" [total, nwrite]])
    else
      some ⟨Ret.fellOff, writes, out ++ [Out.printf "write error: %d\n" [nwrite]]⟩

/-- `libtty_file_send(fd)`, its loop run for at most `fuel` rounds. -/
def libtty_file_send (env : SendEnv) (fd : Int) (fuel : Nat) : Option Sent :=
  let total : Int := 0
  let out := [Out.stdout "please input file name to send:\n"]
  match env.file with
  | none => some ⟨Ret.returned (-1), [], out ++ [Out.stdout "file open failed.\n"]⟩
  | some content => file_send_loop env fd fuel content total [] out

/-- The line settings the driver holds once `t` has been applied through
`tcsetattr` to a driver holding `k`: the flag words, line discipline and control
characters of `t`, and the speeds the driver derives from the `c_cflag` of `t`. -/
def framedLine (k : termios2) (t : termios) : termios2 :=
  { c_iflag := t.c_iflag, c_oflag := t.c_oflag, c_cflag := t.c_cflag, c_lflag := t.c_lflag,
    c_line := t.c_line, c_cc := t.c_cc.take KERNEL_NCCS,
    c_ispeed := tty_termios_input_baud_rate t.c_cflag k.c_ispeed k.c_ospeed,
    c_ospeed := tty_termios_baud_rate t.c_cflag k.c_ospeed }

/-- The state in which `libtty_setopt` enters its baud-rate step when it hands `t`
to `tcsetattr`: the state after the opening query, the flush and the settings
write. -/
def beforeBaudStep (d : Tty) (fd : Int) (t : termios) : Tty :=
  (tcsetattr (tcflush (tcgetattr d fd termios.bzero).2.2 fd TCIOFLUSH).2 fd TCSANOW t).2

/-- Line settings of a port at 9600 baud, 8 data bits, used as a prior state. -/
def termios2.at9600 : termios2 :=
  { termios2.zero with c_cflag := 0xCBD, c_ispeed := 9600, c_ospeed := 9600 }

/-! ## Theorems -/

theorem setopt_built (databits stopbits parity hardflow : Int)
    (hd : validDatabits databits) (hp : validParity parity) (hs : validStopbits stopbits)
    (d : Tty) (fd speed : Int) (tio : termios2) (hok : ∀ n, d.fails n = false) :
    libtty_setopt d fd speed databits stopbits parity hardflow tio =
      (0, { d with
              line := finalLine (expectedSettings databits stopbits parity hardflow 10 0) speed,
              log := d.log ++ [Call.tcgetattr fd, Call.tcflush fd TCIOFLUSH,
                Call.tcsetattr fd TCSANOW (expectedSettings databits stopbits parity hardflow 10 0),
                Call.TCGETS2 fd,
                Call.TCSETS2 fd (finalLine (expectedSettings databits stopbits parity hardflow 10 0) speed),
                Call.TCGETS2 fd] }) := by
  by_cases hh : hardflow = 0 <;>
  rcases hd with rfl | rfl | rfl | rfl <;>
  rcases hp with rfl | rfl | rfl | rfl | rfl | rfl <;>
  rcases hs with rfl | rfl <;>
  simp [libtty_setopt, libtty_setcustombaudrate, tcgetattr, tcflush, tcsetattr, ioctl_TCGETS2,
    ioctl_TCSETS2, Tty.failing, Tty.record, Tty.print, hok, hh, chr, expectedSettings,
    expectedCflag, expectedIflag, finalLine, termios.bzero, bnot32] <;> decide

/-- In `src/tty_uart_V1.2.c` the same run with the read timeout 20 and the minimum
byte count 128. -/
theorem setopt_built_V1_2 (databits stopbits parity hardflow : Int)
    (hd : validDatabits databits) (hp : validParity parity) (hs : validStopbits stopbits)
    (d : Tty) (fd speed : Int) (tio : termios2) (hok : ∀ n, d.fails n = false) :
    V1_2.libtty_setopt d fd speed databits stopbits parity hardflow tio =
      (0, { d with
              line := finalLine (expectedSettings databits stopbits parity hardflow 20 128) speed,
              log := d.log ++ [Call.tcgetattr fd, Call.tcflush fd TCIOFLUSH,
                Call.tcsetattr fd TCSANOW (expectedSettings databits stopbits parity hardflow 20 128),
                Call.TCGETS2 fd,
                Call.TCSETS2 fd
                  (finalLine (expectedSettings databits stopbits parity hardflow 20 128) speed),
                Call.TCGETS2 fd] }) := by
  by_cases hh : hardflow = 0 <;>
  rcases hd with rfl | rfl | rfl | rfl <;>
  rcases hp with rfl | rfl | rfl | rfl | rfl | rfl <;>
  rcases hs with rfl | rfl <;>
  simp [V1_2.libtty_setopt, libtty_setcustombaudrate, tcgetattr, tcflush, tcsetattr,
    ioctl_TCGETS2, ioctl_TCSETS2, Tty.failing, Tty.record, Tty.print, hok, hh, chr,
    expectedSettings, expectedCflag, expectedIflag, finalLine, termios.bzero, bnot32] <;> decide

/-- When the opening query fails, `libtty_setopt` stops there. -/
theorem setopt_query_failed (d : Tty) (fd speed databits stopbits parity hardflow : Int)
    (tio : termios2) (hq : d.fails d.log.length = true) :
    libtty_setopt d fd speed databits stopbits parity hardflow tio =
      (-1, (d.record (Call.tcgetattr fd)).print (Out.perror "tcgetattr")) := by
  simp [libtty_setopt, tcgetattr, Tty.failing, hq]

/-- An unsupported width stops `libtty_setopt` right after the opening query. -/
theorem setopt_bad_databits (d : Tty) (fd speed databits stopbits parity hardflow : Int)
    (tio : termios2) (hq : d.fails d.log.length = false) (hd : ¬ validDatabits databits) :
    libtty_setopt d fd speed databits stopbits parity hardflow tio =
      (-1, (d.record (Call.tcgetattr fd)).print (Out.stderr "unsupported data size\n")) := by
  simp only [validDatabits, not_or] at hd
  obtain ⟨h5, h6, h7, h8⟩ := hd
  simp [libtty_setopt, tcgetattr, Tty.failing, hq, h5, h6, h7, h8]

/-- An unsupported parity character stops `libtty_setopt` once the width is accepted. -/
theorem setopt_bad_parity (d : Tty) (fd speed databits stopbits parity hardflow : Int)
    (tio : termios2) (hq : d.fails d.log.length = false) (hd : validDatabits databits)
    (hp : ¬ validParity parity) :
    libtty_setopt d fd speed databits stopbits parity hardflow tio =
      (-1, (d.record (Call.tcgetattr fd)).print (Out.stderr "unsupported parity\n")) := by
  simp only [validParity, not_or] at hp
  obtain ⟨h1, h2, h3, h4, h5, h6⟩ := hp
  rcases hd with rfl | rfl | rfl | rfl <;>
  simp [libtty_setopt, tcgetattr, Tty.failing, hq, h1, h2, h3, h4, h5, h6]

/-- An unsupported stop-bit count stops `libtty_setopt` once width and parity are
accepted. -/
theorem setopt_bad_stopbits (d : Tty) (fd speed databits stopbits parity hardflow : Int)
    (tio : termios2) (hq : d.fails d.log.length = false) (hd : validDatabits databits)
    (hp : validParity parity) (hs : ¬ validStopbits stopbits) :
    libtty_setopt d fd speed databits stopbits parity hardflow tio =
      (-1, (d.record (Call.tcgetattr fd)).print (Out.perror "unsupported stop bits\n")) := by
  simp only [validStopbits, not_or] at hs
  obtain ⟨h1, h2⟩ := hs
  rcases hd with rfl | rfl | rfl | rfl <;>
  rcases hp with rfl | rfl | rfl | rfl | rfl | rfl <;>
  simp [libtty_setopt, tcgetattr, Tty.failing, hq, h1, h2, chr]

/-- The calls issued while only recording and printing. -/
theorem issued_record_print (d : Tty) (c : Call) (o : Out) :
    issued d ((d.record c).print o) = [c] := by
  simp [issued, Tty.record, Tty.print]

/-- The diagnostics printed while only recording and printing. -/
theorem printed_record_print (d : Tty) (c : Call) (o : Out) :
    printed d ((d.record c).print o) = [o] := by
  simp [printed, Tty.record, Tty.print]

/-- The calls of a state whose log extends that of `d`. -/
theorem issued_append (d e : Tty) (cs : List Call) (h : e.log = d.log ++ cs) :
    issued d e = cs := by
  simp [issued, h]

/-- Masking distributes over the union of two flag words. -/
theorem or_and_mask (a b c : Nat) : (a ||| b) &&& c = (a &&& c) ||| (b &&& c) := by
  rw [Nat.and_comm, Nat.and_or_distrib_left, Nat.and_comm c a, Nat.and_comm c b]

/-- A run of `libtty_setopt` on a valid configuration with every call succeeding:
the result, the one structure handed to `tcsetattr`, the diagnostics and the line
settings left in the driver. -/
theorem setopt_run (databits stopbits parity hardflow : Int)
    (hd : validDatabits databits) (hp : validParity parity) (hs : validStopbits stopbits)
    (d : Tty) (fd speed : Int) (tio : termios2) (hok : ∀ n, d.fails n = false) :
    (libtty_setopt d fd speed databits stopbits parity hardflow tio).1 = 0 ∧
    applied (issued d (libtty_setopt d fd speed databits stopbits parity hardflow tio).2) =
      [expectedSettings databits stopbits parity hardflow 10 0] ∧
    printed d (libtty_setopt d fd speed databits stopbits parity hardflow tio).2 = [] ∧
    (libtty_setopt d fd speed databits stopbits parity hardflow tio).2.line =
      finalLine (expectedSettings databits stopbits parity hardflow 10 0) speed := by
  rw [setopt_built databits stopbits parity hardflow hd hp hs d fd speed tio hok]
  simp [issued, printed, applied]

/-- The character-size field of the expected control flags, width by width. -/
theorem expectedCflag_csize (databits stopbits parity hardflow : Int)
    (hd : validDatabits databits) (hp : validParity parity) (hs : validStopbits stopbits) :
    expectedCflag databits stopbits parity hardflow &&& CSIZE =
      (if databits = 5 then CS5 else if databits = 6 then CS6
        else if databits = 7 then CS7 else CS8) := by
  by_cases hh : hardflow = 0 <;>
  rcases hd with rfl | rfl | rfl | rfl <;>
  rcases hp with rfl | rfl | rfl | rfl | rfl | rfl <;>
  rcases hs with rfl | rfl <;>
  simp [expectedCflag, hh, chr] <;> decide

/-- C1: for a width in 5..8 (with a valid parity and stop-bit count and every device
call succeeding) `libtty_setopt` returns 0 and the character-size field of the
one structure it hands to `tcsetattr` is the constant of that width, which decodes
back to the width; the four constants are pairwise distinct; for every other width the
call returns -1 and prints the unsupported-data-size diagnostic. -/
theorem C1_databits (d : Tty) (fd speed databits stopbits parity hardflow : Int)
    (tio : termios2) (hok : ∀ n, d.fails n = false) :
    (validDatabits databits → validParity parity → validStopbits stopbits →
      (libtty_setopt d fd speed databits stopbits parity hardflow tio).1 = 0 ∧
      ∃ t, applied (issued d
            (libtty_setopt d fd speed databits stopbits parity hardflow tio).2) = [t] ∧
        (databits = 5 → t.c_cflag &&& CSIZE = CS5) ∧
        (databits = 6 → t.c_cflag &&& CSIZE = CS6) ∧
        (databits = 7 → t.c_cflag &&& CSIZE = CS7) ∧
        (databits = 8 → t.c_cflag &&& CSIZE = CS8) ∧
        widthOf t.c_cflag = databits ∧
        widthOf (libtty_setopt d fd speed databits stopbits parity hardflow tio).2.line.c_cflag
          = databits) ∧
    [CS5, CS6, CS7, CS8].Nodup ∧
    (¬ validDatabits databits →
      (libtty_setopt d fd speed databits stopbits parity hardflow tio).1 = -1 ∧
      printed d (libtty_setopt d fd speed databits stopbits parity hardflow tio).2 =
        [Out.stderr "unsupported data size\n"]) := by
  refine ⟨fun hd hp hs => ?_, by decide, fun hd => ?_⟩
  · obtain ⟨h1, h2, -, h4⟩ := setopt_run databits stopbits parity hardflow hd hp hs d fd speed tio hok
    refine ⟨h1, _, h2, ?_⟩
    have hc := expectedCflag_csize databits stopbits parity hardflow hd hp hs
    have hw : widthOf (expectedCflag databits stopbits parity hardflow) = databits := by
      unfold widthOf
      rw [hc]
      rcases hd with rfl | rfl | rfl | rfl <;> decide
    have hf : ((expectedCflag databits stopbits parity hardflow &&& bnot32 CBAUD) ||| BOTHER)
        &&& CSIZE = expectedCflag databits stopbits parity hardflow &&& CSIZE := by
      rw [or_and_mask, Nat.and_assoc]
      have e1 : bnot32 CBAUD &&& CSIZE = CSIZE := by decide
      have e2 : BOTHER &&& CSIZE = 0 := by decide
      rw [e1, e2, Nat.or_zero]
    refine ⟨?_, ?_, ?_, ?_, hw, ?_⟩
    · rintro rfl; simpa [expectedSettings] using hc
    · rintro rfl; simpa [expectedSettings] using hc
    · rintro rfl; simpa [expectedSettings] using hc
    · rintro rfl; simpa [expectedSettings] using hc
    · rw [h4]
      unfold widthOf at hw ⊢
      simpa [finalLine, expectedSettings, hf] using hw
  · rw [setopt_bad_databits d fd speed databits stopbits parity hardflow tio (hok _) hd]
    exact ⟨rfl, printed_record_print _ _ _⟩

/-- C1 at concrete inputs: width 8 on a device whose calls all succeed is accepted,
width 9 is refused. -/
theorem C1_databits_witness :
    (∀ n, (Tty.healthy termios2.zero).fails n = false) ∧
    (libtty_setopt (Tty.healthy termios2.zero) 3 115200 8 1 (chr 'n') 0 termios2.zero).1 = 0 ∧
    (libtty_setopt (Tty.healthy termios2.zero) 3 115200 9 1 (chr 'n') 0 termios2.zero).1 = -1 :=
  ⟨fun _ => rfl,
   ((C1_databits (Tty.healthy termios2.zero) 3 115200 8 1 (chr 'n') 0 termios2.zero
      (fun _ => rfl)).1 (by decide) (by decide) (by decide)).1,
   ((C1_databits (Tty.healthy termios2.zero) 3 115200 9 1 (chr 'n') 0 termios2.zero
      (fun _ => rfl)).2.2 (by decide)).1⟩

/-- The parity bits of the expected flag words, parity by parity. -/
theorem expected_parity_bits (databits stopbits parity hardflow : Int)
    (hd : validDatabits databits) (hp : validParity parity) (hs : validStopbits stopbits) :
    expectedCflag databits stopbits parity hardflow &&& PARENB =
      (if parity = chr 'n' ∨ parity = chr 'N' then 0 else PARENB) ∧
    expectedCflag databits stopbits parity hardflow &&& PARODD =
      (if parity = chr 'o' ∨ parity = chr 'O' then PARODD else 0) ∧
    expectedIflag parity &&& INPCK =
      (if parity = chr 'n' ∨ parity = chr 'N' then 0 else INPCK) := by
  by_cases hh : hardflow = 0 <;>
  rcases hd with rfl | rfl | rfl | rfl <;>
  rcases hp with rfl | rfl | rfl | rfl | rfl | rfl <;>
  rcases hs with rfl | rfl <;>
  simp [expectedCflag, expectedIflag, hh, chr] <;> decide

/-- The stop-bit flag of the expected control flags. -/
theorem expectedCflag_cstopb (databits stopbits parity hardflow : Int)
    (hd : validDatabits databits) (hp : validParity parity) (hs : validStopbits stopbits) :
    expectedCflag databits stopbits parity hardflow &&& CSTOPB =
      (if stopbits = 2 then CSTOPB else 0) := by
  by_cases hh : hardflow = 0 <;>
  rcases hd with rfl | rfl | rfl | rfl <;>
  rcases hp with rfl | rfl | rfl | rfl | rfl | rfl <;>
  rcases hs with rfl | rfl <;>
  simp [expectedCflag, hh, chr] <;> decide

/-- C2: for a valid width and stop-bit count (every device call succeeding), the
settings `libtty_setopt` hands to `tcsetattr` have, for parity None, PARENB and INPCK
clear; for Odd, PARENB, PARODD and INPCK set; for Even, PARENB and INPCK set and
PARODD clear; for every other parity character the call returns -1 and prints the
unsupported-parity diagnostic. -/
theorem C2_parity (d : Tty) (fd speed databits stopbits parity hardflow : Int)
    (tio : termios2) (hok : ∀ n, d.fails n = false)
    (hd : validDatabits databits) (hs : validStopbits stopbits) :
    (validParity parity →
      (libtty_setopt d fd speed databits stopbits parity hardflow tio).1 = 0 ∧
      ∃ t, applied (issued d
            (libtty_setopt d fd speed databits stopbits parity hardflow tio).2) = [t] ∧
        (parity = chr 'n' ∨ parity = chr 'N' →
          t.c_cflag &&& PARENB = 0 ∧ t.c_iflag &&& INPCK = 0) ∧
        (parity = chr 'o' ∨ parity = chr 'O' →
          t.c_cflag &&& PARENB = PARENB ∧ t.c_cflag &&& PARODD = PARODD ∧
            t.c_iflag &&& INPCK = INPCK) ∧
        (parity = chr 'e' ∨ parity = chr 'E' →
          t.c_cflag &&& PARENB = PARENB ∧ t.c_cflag &&& PARODD = 0 ∧
            t.c_iflag &&& INPCK = INPCK)) ∧
    (¬ validParity parity →
      (libtty_setopt d fd speed databits stopbits parity hardflow tio).1 = -1 ∧
      printed d (libtty_setopt d fd speed databits stopbits parity hardflow tio).2 =
        [Out.stderr "unsupported parity\n"]) := by
  refine ⟨fun hp => ?_, fun hp => ?_⟩
  · obtain ⟨h1, h2, -, -⟩ :=
      setopt_run databits stopbits parity hardflow hd hp hs d fd speed tio hok
    obtain ⟨e1, e2, e3⟩ := expected_parity_bits databits stopbits parity hardflow hd hp hs
    refine ⟨h1, _, h2, ?_, ?_, ?_⟩
    · intro h
      rw [if_pos h] at e1 e3
      exact ⟨e1, e3⟩
    · intro h
      have hn : ¬ (parity = chr 'n' ∨ parity = chr 'N') := by
        rcases h with rfl | rfl <;> decide
      rw [if_neg hn] at e1 e3
      rw [if_pos h] at e2
      exact ⟨e1, e2, e3⟩
    · intro h
      have hn : ¬ (parity = chr 'n' ∨ parity = chr 'N') := by
        rcases h with rfl | rfl <;> decide
      have ho : ¬ (parity = chr 'o' ∨ parity = chr 'O') := by
        rcases h with rfl | rfl <;> decide
      rw [if_neg hn] at e1 e3
      rw [if_neg ho] at e2
      exact ⟨e1, e2, e3⟩
  · rw [setopt_bad_parity d fd speed databits stopbits parity hardflow tio (hok _) hd hp]
    exact ⟨rfl, printed_record_print _ _ _⟩

/-- C2 at concrete inputs: odd parity is accepted, the character `x` is refused. -/
theorem C2_parity_witness :
    (∀ n, (Tty.healthy termios2.zero).fails n = false) ∧ validDatabits 8 ∧ validStopbits 1 ∧
    (libtty_setopt (Tty.healthy termios2.zero) 3 9600 8 1 (chr 'o') 0 termios2.zero).1 = 0 ∧
    (libtty_setopt (Tty.healthy termios2.zero) 3 9600 8 1 (chr 'x') 0 termios2.zero).1 = -1 :=
  ⟨fun _ => rfl, by decide, by decide,
   ((C2_parity (Tty.healthy termios2.zero) 3 9600 8 1 (chr 'o') 0 termios2.zero
      (fun _ => rfl) (by decide) (by decide)).1 (by decide)).1,
   ((C2_parity (Tty.healthy termios2.zero) 3 9600 8 1 (chr 'x') 0 termios2.zero
      (fun _ => rfl) (by decide) (by decide)).2 (by decide)).1⟩

/-- C3: for a valid width and parity (every device call succeeding) one stop bit
gives settings with CSTOPB clear, two stop bits settings with CSTOPB set, and every
other count makes `libtty_setopt` return -1 with the unsupported-stop-bits
diagnostic. -/
theorem C3_stopbits (d : Tty) (fd speed databits stopbits parity hardflow : Int)
    (tio : termios2) (hok : ∀ n, d.fails n = false)
    (hd : validDatabits databits) (hp : validParity parity) :
    (validStopbits stopbits →
      (libtty_setopt d fd speed databits stopbits parity hardflow tio).1 = 0 ∧
      ∃ t, applied (issued d
            (libtty_setopt d fd speed databits stopbits parity hardflow tio).2) = [t] ∧
        (stopbits = 1 → t.c_cflag &&& CSTOPB = 0) ∧
        (stopbits = 2 → t.c_cflag &&& CSTOPB = CSTOPB)) ∧
    (¬ validStopbits stopbits →
      (libtty_setopt d fd speed databits stopbits parity hardflow tio).1 = -1 ∧
      printed d (libtty_setopt d fd speed databits stopbits parity hardflow tio).2 =
        [Out.perror "unsupported stop bits\n"]) := by
  refine ⟨fun hs => ?_, fun hs => ?_⟩
  · obtain ⟨h1, h2, -, -⟩ :=
      setopt_run databits stopbits parity hardflow hd hp hs d fd speed tio hok
    have e := expectedCflag_cstopb databits stopbits parity hardflow hd hp hs
    refine ⟨h1, _, h2, ?_, ?_⟩
    · rintro rfl
      simpa [expectedSettings] using e
    · rintro rfl
      simpa [expectedSettings] using e
  · rw [setopt_bad_stopbits d fd speed databits stopbits parity hardflow tio (hok _) hd hp hs]
    exact ⟨rfl, printed_record_print _ _ _⟩

/-- C3 at concrete inputs: two stop bits are accepted, three are refused. -/
theorem C3_stopbits_witness :
    (∀ n, (Tty.healthy termios2.zero).fails n = false) ∧ validDatabits 7 ∧
    validParity (chr 'E') ∧
    (libtty_setopt (Tty.healthy termios2.zero) 3 9600 7 2 (chr 'E') 1 termios2.zero).1 = 0 ∧
    (libtty_setopt (Tty.healthy termios2.zero) 3 9600 7 3 (chr 'E') 1 termios2.zero).1 = -1 :=
  ⟨fun _ => rfl, by decide, by decide,
   ((C3_stopbits (Tty.healthy termios2.zero) 3 9600 7 2 (chr 'E') 1 termios2.zero
      (fun _ => rfl) (by decide) (by decide)).1 (by decide)).1,
   ((C3_stopbits (Tty.healthy termios2.zero) 3 9600 7 3 (chr 'E') 1 termios2.zero
      (fun _ => rfl) (by decide) (by decide)).2 (by decide)).1⟩

/-- A run of `libtty_setcustombaudrate` with every call succeeding: the structure
read is written back with the baud selector replaced and both speeds set. -/
theorem setcustombaudrate_built (d : Tty) (fd baudrate : Int) (tio : termios2)
    (hok : ∀ n, d.fails n = false) :
    libtty_setcustombaudrate d fd baudrate tio =
      (0, { d with
              line := { d.line with
                c_cflag := (d.line.c_cflag &&& bnot32 CBAUD) ||| BOTHER,
                c_ispeed := toU32 baudrate, c_ospeed := toU32 baudrate },
              log := d.log ++ [Call.TCGETS2 fd,
                Call.TCSETS2 fd { d.line with
                  c_cflag := (d.line.c_cflag &&& bnot32 CBAUD) ||| BOTHER,
                  c_ispeed := toU32 baudrate, c_ospeed := toU32 baudrate },
                Call.TCGETS2 fd] }) := by
  simp [libtty_setcustombaudrate, ioctl_TCGETS2, ioctl_TCSETS2, Tty.failing, Tty.record,
    Tty.print, hok]

/-- An `int` in the range of `speed_t` is stored unchanged. -/
theorem toU32_of_range (x : Int) (h0 : 0 ≤ x) (h1 : x < 4294967296) :
    ((toU32 x : Nat) : Int) = x := by
  unfold toU32
  rw [Int.emod_eq_of_lt h0 h1, Int.toNat_of_nonneg h0]

/-- Replacing the baud selector by BOTHER leaves exactly BOTHER in the selector. -/
theorem cbaud_replaced (c : Nat) : ((c &&& bnot32 CBAUD) ||| BOTHER) &&& CBAUD = BOTHER := by
  rw [or_and_mask, Nat.and_assoc]
  have e1 : bnot32 CBAUD &&& CBAUD = 0 := by decide
  have e2 : BOTHER &&& CBAUD = BOTHER := by decide
  rw [e1, e2, Nat.and_zero, Nat.zero_or]

/-- Replacing the baud selector touches no bit of the 32-bit word outside it. -/
theorem cbaud_outside (c i : Nat) (hi : i < 32) (hb : CBAUD.testBit i = false) :
    ((c &&& bnot32 CBAUD) ||| BOTHER).testBit i = c.testBit i := by
  rw [Nat.testBit_or, Nat.testBit_and]
  have e1 : (bnot32 CBAUD).testBit i = true := by
    revert hb
    interval_cases i <;> decide
  have e2 : BOTHER.testBit i = false := by
    revert hb
    interval_cases i <;> decide
  rw [e1, e2]
  simp

/-- C4: for every positive `int` baud rate and every prior line settings, when the
TCGETS2/TCSETS2 calls succeed `libtty_setcustombaudrate` returns 0 and the structure
it writes back has both speeds equal to the rate and BOTHER in the baud selector,
every bit of `c_cflag` outside the selector and every other field being as read; the
driver then holds that structure, and a later query reports the requested speeds. -/
theorem C4_custombaudrate (d : Tty) (fd baudrate : Int) (tio : termios2)
    (hpos : 0 < baudrate) (hmax : baudrate ≤ 2147483647) (hok : ∀ n, d.fails n = false) :
    (libtty_setcustombaudrate d fd baudrate tio).1 = 0 ∧
    ∃ w, issued d (libtty_setcustombaudrate d fd baudrate tio).2 =
          [Call.TCGETS2 fd, Call.TCSETS2 fd w, Call.TCGETS2 fd] ∧
      (w.c_ispeed : Int) = baudrate ∧ (w.c_ospeed : Int) = baudrate ∧
      w.c_cflag &&& CBAUD = BOTHER ∧
      (∀ i, i < 32 → CBAUD.testBit i = false →
        w.c_cflag.testBit i = d.line.c_cflag.testBit i) ∧
      w.c_iflag = d.line.c_iflag ∧ w.c_oflag = d.line.c_oflag ∧
      w.c_lflag = d.line.c_lflag ∧ w.c_line = d.line.c_line ∧ w.c_cc = d.line.c_cc ∧
      (libtty_setcustombaudrate d fd baudrate tio).2.line = w ∧
      ∀ q, (ioctl_TCGETS2 (libtty_setcustombaudrate d fd baudrate tio).2 fd q).1 = 0 ∧
        ((ioctl_TCGETS2 (libtty_setcustombaudrate d fd baudrate tio).2 fd q).2.1.c_ispeed : Int)
          = baudrate ∧
        ((ioctl_TCGETS2 (libtty_setcustombaudrate d fd baudrate tio).2 fd q).2.1.c_ospeed : Int)
          = baudrate := by
  have hs : ((toU32 baudrate : Nat) : Int) = baudrate :=
    toU32_of_range baudrate (le_of_lt hpos) (by omega)
  rw [setcustombaudrate_built d fd baudrate tio hok]
  refine ⟨rfl, _, issued_append _ _ _ rfl, hs, hs, cbaud_replaced _,
    fun i hi hb => cbaud_outside _ i hi hb, rfl, rfl, rfl, rfl, rfl, rfl, fun q => ?_⟩
  simp [ioctl_TCGETS2, Tty.failing, Tty.record, hok, hs]

/-- C4 at the non-standard rate 123456 on a device whose calls all succeed. -/
theorem C4_custombaudrate_witness :
    (0 : Int) < 123456 ∧ (123456 : Int) ≤ 2147483647 ∧
    (∀ n, (Tty.healthy termios2.zero).fails n = false) ∧
    (libtty_setcustombaudrate (Tty.healthy termios2.zero) 3 123456 termios2.zero).1 = 0 ∧
    (libtty_setcustombaudrate (Tty.healthy termios2.zero) 3 123456 termios2.zero).2.line.c_ospeed
      = 123456 :=
  ⟨by decide, by decide, fun _ => rfl,
   (C4_custombaudrate (Tty.healthy termios2.zero) 3 123456 termios2.zero (by decide) (by decide)
      (fun _ => rfl)).1,
   by decide⟩

/-- C5: on a valid configuration with every device call succeeding, a second call of
`libtty_setopt` with the same arguments returns 0 like the first and leaves the
driver with the same line settings (flag words, control characters, both speeds) and
modem-control word as the first call alone. -/
theorem C5_idempotent (d : Tty) (fd speed databits stopbits parity hardflow : Int)
    (tio tio' : termios2) (hok : ∀ n, d.fails n = false)
    (hd : validDatabits databits) (hp : validParity parity) (hs : validStopbits stopbits) :
    (libtty_setopt d fd speed databits stopbits parity hardflow tio).1 = 0 ∧
    (libtty_setopt (libtty_setopt d fd speed databits stopbits parity hardflow tio).2
      fd speed databits stopbits parity hardflow tio').1 = 0 ∧
    (libtty_setopt (libtty_setopt d fd speed databits stopbits parity hardflow tio).2
      fd speed databits stopbits parity hardflow tio').2.line =
      (libtty_setopt d fd speed databits stopbits parity hardflow tio).2.line ∧
    (libtty_setopt (libtty_setopt d fd speed databits stopbits parity hardflow tio).2
      fd speed databits stopbits parity hardflow tio').2.modem =
      (libtty_setopt d fd speed databits stopbits parity hardflow tio).2.modem := by
  have h1 := setopt_built databits stopbits parity hardflow hd hp hs d fd speed tio hok
  have h2 := setopt_built databits stopbits parity hardflow hd hp hs
    (libtty_setopt d fd speed databits stopbits parity hardflow tio).2 fd speed tio'
    (by rw [h1]; exact hok)
  rw [h2, h1]
  exact ⟨rfl, rfl, rfl, rfl⟩

/-- C5 at a concrete configuration: 115200 baud, 8 data bits, no parity, 1 stop bit. -/
theorem C5_idempotent_witness :
    (∀ n, (Tty.healthy termios2.zero).fails n = false) ∧ validDatabits 8 ∧
    validParity (chr 'n') ∧ validStopbits 1 ∧
    (libtty_setopt (libtty_setopt (Tty.healthy termios2.zero) 3 115200 8 1 (chr 'n') 0
      termios2.zero).2 3 115200 8 1 (chr 'n') 0 termios2.zero).2.line =
      (libtty_setopt (Tty.healthy termios2.zero) 3 115200 8 1 (chr 'n') 0 termios2.zero).2.line :=
  ⟨fun _ => rfl, by decide, by decide, by decide,
   (C5_idempotent (Tty.healthy termios2.zero) 3 115200 8 1 (chr 'n') 0 termios2.zero
      termios2.zero (fun _ => rfl) (by decide) (by decide) (by decide)).2.2.1⟩

/-- A run of `libtty_setopt` of `src/tty_uart_V1.2.c` on a valid configuration with
every call succeeding: the one structure handed to `tcsetattr`. -/
theorem setopt_run_V1_2 (databits stopbits parity hardflow : Int)
    (hd : validDatabits databits) (hp : validParity parity) (hs : validStopbits stopbits)
    (d : Tty) (fd speed : Int) (tio : termios2) (hok : ∀ n, d.fails n = false) :
    (V1_2.libtty_setopt d fd speed databits stopbits parity hardflow tio).1 = 0 ∧
    applied (issued d (V1_2.libtty_setopt d fd speed databits stopbits parity hardflow tio).2) =
      [expectedSettings databits stopbits parity hardflow 20 128] := by
  rw [setopt_built_V1_2 databits stopbits parity hardflow hd hp hs d fd speed tio hok]
  simp [issued, applied]

/-- C6, as stated, fails for `src/tty_uart_V1.2.c`: on a device whose calls all
succeed, with 9600 baud, 8 data bits, no parity and 1 stop bit, the settings its
`libtty_setopt` applies do not have VMIN = 0 and VTIME = 10. -/
theorem C6_V1_2_counterexample :
    ¬ (∀ t ∈ applied (issued (Tty.healthy termios2.zero)
          (V1_2.libtty_setopt (Tty.healthy termios2.zero) 3 9600 8 1 (chr 'n') 0
            termios2.zero).2),
        t.c_cc[VMIN]? = some 0 ∧ t.c_cc[VTIME]? = some 10) := by
  decide

/-- C6, amended: for every valid configuration (every device call succeeding) the
settings `libtty_setopt` of `src/tty_uart.c` applies have VMIN = 0 and VTIME = 10
tenths of a second, and the driver holds them afterwards; the settings
`libtty_setopt` of `src/tty_uart_V1.2.c` applies have VMIN = 128 and VTIME = 20. -/
theorem C6_read_timeout (d : Tty) (fd speed databits stopbits parity hardflow : Int)
    (tio : termios2) (hok : ∀ n, d.fails n = false)
    (hd : validDatabits databits) (hp : validParity parity) (hs : validStopbits stopbits) :
    (∃ t, applied (issued d
          (libtty_setopt d fd speed databits stopbits parity hardflow tio).2) = [t] ∧
      t.c_cc[VMIN]? = some 0 ∧ t.c_cc[VTIME]? = some 10 ∧
      (libtty_setopt d fd speed databits stopbits parity hardflow tio).2.line.c_cc[VMIN]?
        = some 0 ∧
      (libtty_setopt d fd speed databits stopbits parity hardflow tio).2.line.c_cc[VTIME]?
        = some 10) ∧
    (∃ t, applied (issued d
          (V1_2.libtty_setopt d fd speed databits stopbits parity hardflow tio).2) = [t] ∧
      t.c_cc[VMIN]? = some 128 ∧ t.c_cc[VTIME]? = some 20) := by
  obtain ⟨-, h2, -, h4⟩ :=
    setopt_run databits stopbits parity hardflow hd hp hs d fd speed tio hok
  obtain ⟨-, k2⟩ :=
    setopt_run_V1_2 databits stopbits parity hardflow hd hp hs d fd speed tio hok
  refine ⟨⟨_, h2, rfl, rfl, ?_, ?_⟩, ⟨_, k2, rfl, rfl⟩⟩
  · rw [h4]; rfl
  · rw [h4]; rfl

/-- C6 (amended) at a concrete configuration on a device whose calls all succeed. -/
theorem C6_read_timeout_witness :
    (∀ n, (Tty.healthy termios2.zero).fails n = false) ∧ validDatabits 8 ∧
    validParity (chr 'n') ∧ validStopbits 1 ∧
    (libtty_setopt (Tty.healthy termios2.zero) 3 9600 8 1 (chr 'n') 0 termios2.zero
      ).2.line.c_cc[VTIME]? = some 10 :=
  ⟨fun _ => rfl, by decide, by decide, by decide,
   (C6_read_timeout (Tty.healthy termios2.zero) 3 9600 8 1 (chr 'n') 0 termios2.zero
      (fun _ => rfl) (by decide) (by decide) (by decide)).1.choose_spec.2.2.2.2⟩

/-- C7: for every valid configuration (every device call succeeding) the `c_cflag`
handed to `tcsetattr` is exactly CLOCAL, CREAD, the character-size constant, the
parity bits, CSTOPB for two stop bits and CRTSCTS for a non-zero `hardflow`, and
nothing else; `c_iflag` is INPCK or 0; and a call on any other device state `e`
hands over the same structure, whatever settings that device held. -/
theorem C7_cflag_assembly (d e : Tty) (fd speed databits stopbits parity hardflow : Int)
    (tio tio' : termios2) (hok : ∀ n, d.fails n = false) (hok' : ∀ n, e.fails n = false)
    (hd : validDatabits databits) (hp : validParity parity) (hs : validStopbits stopbits) :
    ∃ t, applied (issued d
          (libtty_setopt d fd speed databits stopbits parity hardflow tio).2) = [t] ∧
      t.c_cflag =
        (CLOCAL ||| CREAD
          ||| (if databits = 5 then CS5 else if databits = 6 then CS6
                else if databits = 7 then CS7 else CS8)
          ||| (if parity = chr 'o' ∨ parity = chr 'O' then PARENB ||| PARODD
                else if parity = chr 'e' ∨ parity = chr 'E' then PARENB else 0)
          ||| (if stopbits = 2 then CSTOPB else 0)
          ||| (if hardflow ≠ 0 then CRTSCTS else 0)) ∧
      (t.c_iflag = INPCK ∨ t.c_iflag = 0) ∧
      applied (issued e
          (libtty_setopt e fd speed databits stopbits parity hardflow tio').2) = [t] := by
  obtain ⟨-, h2, -, -⟩ :=
    setopt_run databits stopbits parity hardflow hd hp hs d fd speed tio hok
  obtain ⟨-, k2, -, -⟩ :=
    setopt_run databits stopbits parity hardflow hd hp hs e fd speed tio' hok'
  refine ⟨_, h2, rfl, ?_, k2⟩
  by_cases h : parity = chr 'n' ∨ parity = chr 'N'
  · right; simp [expectedSettings, expectedIflag, h]
  · left; simp [expectedSettings, expectedIflag, h]

/-- C7 at a concrete configuration, on a device holding all-zero settings and on one
holding other settings. -/
theorem C7_cflag_assembly_witness :
    (∀ n, (Tty.healthy termios2.zero).fails n = false) ∧
    (∀ n, (Tty.healthy { termios2.zero with c_cflag := 0xBD, c_iflag := 0x500 }).fails n
      = false) ∧
    validDatabits 8 ∧ validParity (chr 'n') ∧ validStopbits 1 ∧
    ∃ t, applied (issued (Tty.healthy termios2.zero)
          (libtty_setopt (Tty.healthy termios2.zero) 3 9600 8 1 (chr 'n') 0
            termios2.zero).2) = [t] ∧
      t.c_cflag = CLOCAL ||| CREAD ||| CS8 :=
  ⟨fun _ => rfl, fun _ => rfl, by decide, by decide, by decide,
   (C7_cflag_assembly (Tty.healthy termios2.zero)
      (Tty.healthy { termios2.zero with c_cflag := 0xBD, c_iflag := 0x500 })
      3 9600 8 1 (chr 'n') 0 termios2.zero termios2.zero
      (fun _ => rfl) (fun _ => rfl) (by decide) (by decide) (by decide)).elim
     (fun t ht => ⟨t, ht.1, by rw [ht.2.1]; decide⟩)⟩

/-- C8: when the width, the parity character or the stop-bit count is outside the
allowed set, `libtty_setopt` returns -1 having issued nothing but the opening
`tcgetattr` query (no `tcflush`, no `tcsetattr`, no baud-rate call), so the line
settings and the modem-control word the driver holds are those from before the call;
this holds whether or not the query succeeds. -/
theorem C8_validation_before_application (d : Tty)
    (fd speed databits stopbits parity hardflow : Int) (tio : termios2)
    (hbad : ¬ validDatabits databits ∨ ¬ validParity parity ∨ ¬ validStopbits stopbits) :
    (libtty_setopt d fd speed databits stopbits parity hardflow tio).1 = -1 ∧
    issued d (libtty_setopt d fd speed databits stopbits parity hardflow tio).2 =
      [Call.tcgetattr fd] ∧
    (libtty_setopt d fd speed databits stopbits parity hardflow tio).2.line = d.line ∧
    (libtty_setopt d fd speed databits stopbits parity hardflow tio).2.modem = d.modem := by
  cases hq : d.fails d.log.length with
  | true =>
    rw [setopt_query_failed d fd speed databits stopbits parity hardflow tio hq]
    exact ⟨rfl, issued_record_print _ _ _, rfl, rfl⟩
  | false =>
    by_cases hd : validDatabits databits
    · by_cases hp : validParity parity
      · have hs : ¬ validStopbits stopbits := by
          rcases hbad with h | h | h
          · exact absurd hd h
          · exact absurd hp h
          · exact h
        rw [setopt_bad_stopbits d fd speed databits stopbits parity hardflow tio hq hd hp hs]
        exact ⟨rfl, issued_record_print _ _ _, rfl, rfl⟩
      · rw [setopt_bad_parity d fd speed databits stopbits parity hardflow tio hq hd hp]
        exact ⟨rfl, issued_record_print _ _ _, rfl, rfl⟩
    · rw [setopt_bad_databits d fd speed databits stopbits parity hardflow tio hq hd]
      exact ⟨rfl, issued_record_print _ _ _, rfl, rfl⟩

/-- C8 at a concrete input: three stop bits on a device holding non-zero settings. -/
theorem C8_validation_before_application_witness :
    (¬ validDatabits 8 ∨ ¬ validParity (chr 'n') ∨ ¬ validStopbits 3) ∧
    (libtty_setopt (Tty.healthy { termios2.zero with c_cflag := 0xBD }) 3 9600 8 3 (chr 'n') 0
      termios2.zero).1 = -1 ∧
    (libtty_setopt (Tty.healthy { termios2.zero with c_cflag := 0xBD }) 3 9600 8 3 (chr 'n') 0
      termios2.zero).2.line = { termios2.zero with c_cflag := 0xBD } :=
  ⟨by decide,
   (C8_validation_before_application (Tty.healthy { termios2.zero with c_cflag := 0xBD })
      3 9600 8 3 (chr 'n') 0 termios2.zero (by decide)).1,
   (C8_validation_before_application (Tty.healthy { termios2.zero with c_cflag := 0xBD })
      3 9600 8 3 (chr 'n') 0 termios2.zero (by decide)).2.2.1⟩

/-- C9: `libtty_tiocmset` issues one call, TIOCMSET, whose modem-control word has
the DTR bit set exactly when `bDTR` is non-zero, the RTS bit set exactly when `bRTS`
is non-zero and no other bit set; the function's result and effect are those of that
call: 0 with the word stored when it succeeds, non-zero with the driver untouched
when it fails. -/
theorem C9_tiocmset (d : Tty) (fd bDTR bRTS : Int) :
    ∃ bits, issued d (libtty_tiocmset d fd bDTR bRTS).2 = [Call.TIOCMSET fd bits] ∧
      (bits &&& TIOCM_DTR = TIOCM_DTR ↔ bDTR ≠ 0) ∧
      (bits &&& TIOCM_RTS = TIOCM_RTS ↔ bRTS ≠ 0) ∧
      bits &&& (TIOCM_DTR ||| TIOCM_RTS) = bits ∧
      libtty_tiocmset d fd bDTR bRTS = ioctl_TIOCMSET d fd bits ∧
      (d.fails d.log.length = false →
        (libtty_tiocmset d fd bDTR bRTS).1 = 0 ∧
        (libtty_tiocmset d fd bDTR bRTS).2.modem = bits) ∧
      (d.fails d.log.length = true →
        (libtty_tiocmset d fd bDTR bRTS).1 ≠ 0 ∧
        (libtty_tiocmset d fd bDTR bRTS).2.modem = d.modem ∧
        (libtty_tiocmset d fd bDTR bRTS).2.line = d.line) := by
  by_cases h1 : bDTR = 0 <;> by_cases h2 : bRTS = 0 <;>
  cases hq : d.fails d.log.length <;>
  simp [libtty_tiocmset, ioctl_TIOCMSET, issued, Tty.failing, Tty.record, h1, h2, hq] <;>
  decide

/-- The unsigned pattern of an `int` fits 32 bits. -/
theorem toU32_lt (x : Int) : toU32 x < 4294967296 := by
  unfold toU32
  omega

/-- Reading a 32-bit pattern as an `int` and back gives the pattern. -/
theorem toU32_toI32 (n : Nat) (h : n < 4294967296) : toU32 (toI32 n) = n := by
  unfold toU32 toI32
  split <;> omega

/-- The pattern of `x & ~O_NONBLOCK`. -/
theorem toU32_clear_nonblock (x : Int) :
    toU32 (and32 x (not32 O_NONBLOCK)) = toU32 x &&& 0xFFFFF7FF := by
  have e : toU32 (not32 O_NONBLOCK) = 0xFFFFF7FF := by decide
  unfold and32
  rw [e, toU32_toI32]
  exact lt_of_le_of_lt Nat.and_le_left (toU32_lt x)

/-- The complement of the non-blocking flag has every bit of the word but bit 11. -/
theorem testBit_not_nonblock (i : Nat) (hi : i < 32) :
    (0xFFFFF7FF : Nat).testBit i = decide (i ≠ 11) := by
  interval_cases i <;> decide

/-- C10: `libtty_open` returns a non-negative handle exactly when the device opens,
F_SETFL succeeds and `isatty` is non-zero, and the handle is then the descriptor
`open` gave; in every other case it returns -1. A path that opens but is not a
terminal gives -1 with the not-a-terminal diagnostic. The flag word written by
F_SETFL is, as a 32-bit word, the word F_GETFL gave with bit 11 (O_NONBLOCK) alone
cleared. -/
theorem C10_open (s : Sys) (devname : String) (fd flags : Int)
    (hfd : s.sys_open devname (or32 (or32 O_RDWR O_NOCTTY) O_NDELAY) = fd)
    (hfl : and32 (s.fcntl_getfl fd) (not32 O_NONBLOCK) = flags) :
    (0 ≤ (libtty_open s devname).ret ↔
      0 ≤ fd ∧ 0 ≤ s.fcntl_setfl fd flags ∧ s.sys_isatty fd ≠ 0) ∧
    (0 ≤ (libtty_open s devname).ret → (libtty_open s devname).ret = fd) ∧
    (¬ 0 ≤ (libtty_open s devname).ret → (libtty_open s devname).ret = -1) ∧
    (0 ≤ fd → 0 ≤ s.fcntl_setfl fd flags → s.sys_isatty fd = 0 →
      (libtty_open s devname).ret = -1 ∧
      (libtty_open s devname).out = [Out.stdout "not tty device.\n"]) ∧
    (0 ≤ fd → (libtty_open s devname).calls.take 3 =
      [SysCall.sys_open devname (or32 (or32 O_RDWR O_NOCTTY) O_NDELAY),
        SysCall.F_GETFL fd, SysCall.F_SETFL fd flags]) ∧
    (∀ i, i < 32 →
      (toU32 flags).testBit i = ((toU32 (s.fcntl_getfl fd)).testBit i && decide (i ≠ 11))) := by
  subst hfd
  subst hfl
  refine ⟨?_, ?_, ?_, ?_, ?_, ?_⟩
  · unfold libtty_open
    simp only
    split_ifs with h1 h2 h3 <;> simp_all
  · unfold libtty_open
    simp only
    split_ifs with h1 h2 h3 <;> simp
  · unfold libtty_open
    simp only
    split_ifs with h1 h2 h3 <;> simp
    omega
  · intro h1 h2 h3
    simp [libtty_open, not_lt.mpr h1, not_lt.mpr h2, h3]
  · intro h0
    unfold libtty_open
    simp only
    split_ifs with h1 h2 h3 <;> first | (exfalso; omega) | simp
  · intro i hi
    rw [toU32_clear_nonblock, Nat.testBit_and, testBit_not_nonblock i hi]

/-- C10 at concrete inputs: a regular file that opens is refused, a terminal is
accepted with the descriptor `open` gave. -/
theorem C10_open_witness :
    regularFile.sys_open "/tmp/data.bin" (or32 (or32 O_RDWR O_NOCTTY) O_NDELAY) = 3 ∧
    and32 (regularFile.fcntl_getfl 3) (not32 O_NONBLOCK) = 2 ∧
    (libtty_open regularFile "/tmp/data.bin").ret = -1 ∧
    (libtty_open terminal "/dev/ttyUSB0").ret = 3 :=
  ⟨rfl, by decide,
   ((C10_open regularFile "/tmp/data.bin" 3 2 rfl (by decide)).2.2.2.1
      (by decide) (by decide) rfl).1,
   (C10_open terminal "/dev/ttyUSB0" 3 2 rfl (by decide)).2.1 (by decide)⟩

/-- When the file cannot be opened `libtty_file_send` returns -1, whatever the
number of rounds allowed. -/
theorem file_send_open_failed (env : SendEnv) (fd : Int) (fuel : Nat)
    (h : env.file = none) :
    libtty_file_send env fd fuel =
      some ⟨Ret.returned (-1), [],
        [Out.stdout "please input file name to send:\n", Out.stdout "file open failed.\n"]⟩ := by
  simp [libtty_file_send, h]

/-- When no `write` gives a negative count the loop of `libtty_file_send` ends by
returning 0, given one round for each 4096 bytes and one more. -/
theorem file_send_loop_all_written (env : SendEnv) (fd : Int)
    (hw : ∀ buf k, 0 ≤ env.write fd buf k) :
    ∀ (fuel : Nat) (rest : List Nat) (total : Int) (writes : List (List Nat)) (out : List Out),
      rest.length + 4096 ≤ fuel * 4096 →
      ∃ s, file_send_loop env fd fuel rest total writes out = some s ∧
        s.ret = Ret.returned 0 := by
  intro fuel
  induction fuel with
  | zero => intro rest total writes out h; omega
  | succ fuel ih =>
    intro rest total writes out h
    unfold file_send_loop
    by_cases h0 : rest.length = 0
    · simp [h0]
    · have hlen : (rest.drop 4096).length + 4096 ≤ fuel * 4096 := by
        rw [List.length_drop]
        omega
      have hpos : ¬ ((min 4096 rest.length : Nat) : Int) ≤ 0 := by omega
      simp only [List.length_take, hpos, if_false, ge_iff_le, hw, if_true]
      exact ih _ _ _ _ hlen

/-- With the file opened and no `write` giving a negative count `libtty_file_send`
returns 0. -/
theorem file_send_all_written (env : SendEnv) (fd : Int) (content : List Nat) (fuel : Nat)
    (hf : env.file = some content) (hw : ∀ buf k, 0 ≤ env.write fd buf k)
    (hfuel : content.length + 4096 ≤ fuel * 4096) :
    ∃ s, libtty_file_send env fd fuel = some s ∧ s.ret = Ret.returned 0 := by
  simp only [libtty_file_send, hf]
  exact file_send_loop_all_written env fd hw fuel content 0 [] _ hfuel

/-- C11: at a file of two bytes that opens and a device whose first `write` gives -1,
`libtty_file_send` prints the write error, leaves the loop and reaches the end of
the function without a `return`: the caller gets no value, not the -1 the function's
comment promises. -/
theorem C11_file_send_write_error :
    libtty_file_send { file := some [0x68, 0x69], write := fun _ _ _ => -1 } 3 2 =
      some ⟨Ret.fellOff, [[0x68, 0x69]],
        [Out.stdout "please input file name to send:\n",
          Out.printf "write error: %d\n" [-1]]⟩ := by
  decide

/-- C12, as stated, fails: on a device whose calls all succeed, `libtty_setopt` with
9 data bits does not fail with the data-size diagnostic without a query, for it has
issued the `tcgetattr` query before it looks at the width. -/
theorem C12_query_first_counterexample :
    ¬ ((libtty_setopt (Tty.healthy termios2.zero) 3 9600 9 1 (chr 'n') 0 termios2.zero).1 = -1 ∧
        printed (Tty.healthy termios2.zero)
          (libtty_setopt (Tty.healthy termios2.zero) 3 9600 9 1 (chr 'n') 0 termios2.zero).2 =
          [Out.stderr "unsupported data size\n"] ∧
        issued (Tty.healthy termios2.zero)
          (libtty_setopt (Tty.healthy termios2.zero) 3 9600 9 1 (chr 'n') 0 termios2.zero).2 =
          []) := by
  decide

/-- C12, amended: for every width outside 5..8, whatever the other arguments and the
state of the device, `libtty_setopt` returns -1 having issued exactly one device
call, the `tcgetattr` query of the prior settings, which comes before the width is
looked at; when that query succeeds the diagnostic is the unsupported-data-size one,
when it fails the diagnostic is that of `tcgetattr`; the driver's settings are
untouched. -/
theorem C12_databits_after_query (d : Tty)
    (fd speed databits stopbits parity hardflow : Int) (tio : termios2)
    (hd : ¬ validDatabits databits) :
    (libtty_setopt d fd speed databits stopbits parity hardflow tio).1 = -1 ∧
    issued d (libtty_setopt d fd speed databits stopbits parity hardflow tio).2 =
      [Call.tcgetattr fd] ∧
    (d.fails d.log.length = false →
      printed d (libtty_setopt d fd speed databits stopbits parity hardflow tio).2 =
        [Out.stderr "unsupported data size\n"]) ∧
    (d.fails d.log.length = true →
      printed d (libtty_setopt d fd speed databits stopbits parity hardflow tio).2 =
        [Out.perror "tcgetattr"]) ∧
    (libtty_setopt d fd speed databits stopbits parity hardflow tio).2.line = d.line := by
  cases hq : d.fails d.log.length with
  | true =>
    rw [setopt_query_failed d fd speed databits stopbits parity hardflow tio hq]
    exact ⟨rfl, issued_record_print _ _ _, fun h => absurd h (by simp),
      fun _ => printed_record_print _ _ _, rfl⟩
  | false =>
    rw [setopt_bad_databits d fd speed databits stopbits parity hardflow tio hq hd]
    exact ⟨rfl, issued_record_print _ _ _, fun _ => printed_record_print _ _ _,
      fun h => absurd h (by simp), rfl⟩

/-- C12 (amended) at 9 data bits: on a device whose calls all succeed and on one whose
first call fails. -/
theorem C12_databits_after_query_witness :
    ¬ validDatabits 9 ∧
    printed (Tty.healthy termios2.zero)
      (libtty_setopt (Tty.healthy termios2.zero) 3 9600 9 1 (chr 'n') 0 termios2.zero).2 =
      [Out.stderr "unsupported data size\n"] ∧
    printed (Tty.faulty termios2.zero (fun n => decide (n = 0)))
      (libtty_setopt (Tty.faulty termios2.zero (fun n => decide (n = 0)))
        3 9600 9 1 (chr 'n') 0 termios2.zero).2 =
      [Out.perror "tcgetattr"] :=
  ⟨by decide,
   (C12_databits_after_query (Tty.healthy termios2.zero) 3 9600 9 1 (chr 'n') 0 termios2.zero
      (by decide)).2.2.1 rfl,
   (C12_databits_after_query (Tty.faulty termios2.zero (fun n => decide (n = 0)))
      3 9600 9 1 (chr 'n') 0 termios2.zero (by decide)).2.2.2.1 rfl⟩

/-- Whatever its result, `tcflush` only records the call. -/
theorem tcflush_eq (d : Tty) (fd : Int) (queue : Nat) :
    tcflush d fd queue =
      (if d.failing then -1 else 0, d.record (Call.tcflush fd queue)) := by
  unfold tcflush
  split <;> simp_all

/-- The control flags of a valid configuration select B0 for output and for input. -/
theorem expectedCflag_cbaud (databits stopbits parity hardflow : Int)
    (hd : validDatabits databits) (hp : validParity parity) (hs : validStopbits stopbits) :
    expectedCflag databits stopbits parity hardflow &&& CBAUD = 0 ∧
    (expectedCflag databits stopbits parity hardflow >>> IBSHIFT) &&& CBAUD = 0 := by
  by_cases hh : hardflow = 0 <;>
  rcases hd with rfl | rfl | rfl | rfl <;>
  rcases hp with rfl | rfl | rfl | rfl | rfl | rfl <;>
  rcases hs with rfl | rfl <;>
  simp [expectedCflag, hh, chr] <;> decide

/-- The speeds the driver derives from the control flags of a valid configuration
are those of B0, whatever speeds it held. -/
theorem expected_speeds (databits stopbits parity hardflow : Int)
    (hd : validDatabits databits) (hp : validParity parity) (hs : validStopbits stopbits)
    (i o : Nat) :
    tty_termios_input_baud_rate (expectedCflag databits stopbits parity hardflow) i o = 0 ∧
    tty_termios_baud_rate (expectedCflag databits stopbits parity hardflow) o = 0 := by
  obtain ⟨h1, h2⟩ := expectedCflag_cbaud databits stopbits parity hardflow hd hp hs
  have e : tty_termios_baud_rate (expectedCflag databits stopbits parity hardflow) o = 0 := by
    simp only [tty_termios_baud_rate, h1]
    rfl
  refine ⟨?_, e⟩
  simp only [tty_termios_input_baud_rate, h2, if_true]
  exact e

/-- The state in which the baud-rate step is entered, when the opening query and the
settings write succeed. -/
theorem beforeBaudStep_eq (d : Tty) (fd : Int) (t : termios)
    (h0 : d.fails d.log.length = false) (h2 : d.fails (d.log.length + 2) = false) :
    beforeBaudStep d fd t =
      { d with
          line := framedLine d.line t,
          log := d.log ++ [Call.tcgetattr fd, Call.tcflush fd TCIOFLUSH,
            Call.tcsetattr fd TCSANOW t] } := by
  simp [beforeBaudStep, tcgetattr, tcflush_eq, tcsetattr, Tty.failing, Tty.record, h0, h2,
    framedLine]

set_option maxHeartbeats 1000000 in
/-- A run of `libtty_setopt` on a valid configuration in which the query and the
settings write succeed and the first query of the baud-rate step fails. -/
theorem setopt_baud_query_failed (databits stopbits parity hardflow : Int)
    (hd : validDatabits databits) (hp : validParity parity) (hs : validStopbits stopbits)
    (d : Tty) (fd speed : Int) (tio : termios2)
    (h0 : d.fails d.log.length = false) (h2 : d.fails (d.log.length + 2) = false)
    (h3 : d.fails (d.log.length + 3) = true) :
    libtty_setopt d fd speed databits stopbits parity hardflow tio =
      (-1, { d with
              line := framedLine d.line (expectedSettings databits stopbits parity hardflow 10 0),
              log := d.log ++ [Call.tcgetattr fd, Call.tcflush fd TCIOFLUSH,
                Call.tcsetattr fd TCSANOW (expectedSettings databits stopbits parity hardflow 10 0),
                Call.TCGETS2 fd],
              out := d.out ++ [Out.perror "TCGETS2", Out.perror "setbaudrate"] }) := by
  by_cases hh : hardflow = 0 <;>
  rcases hd with rfl | rfl | rfl | rfl <;>
  rcases hp with rfl | rfl | rfl | rfl | rfl | rfl <;>
  rcases hs with rfl | rfl <;>
  simp [libtty_setopt, libtty_setcustombaudrate, tcgetattr, tcflush_eq, tcsetattr, ioctl_TCGETS2,
    ioctl_TCSETS2, Tty.failing, Tty.record, Tty.print, h0, h2, h3, hh, chr,
    expectedSettings, expectedCflag, expectedIflag, framedLine, termios.bzero, bnot32] <;>
  (repeat' apply And.intro) <;>
  first | decide | congr 1

set_option maxHeartbeats 1000000 in
/-- A run of `libtty_setopt` on a valid configuration in which the query, the
settings write and the first query of the baud-rate step succeed and the write of
the baud-rate step fails. -/
theorem setopt_baud_write_failed (databits stopbits parity hardflow : Int)
    (hd : validDatabits databits) (hp : validParity parity) (hs : validStopbits stopbits)
    (d : Tty) (fd speed : Int) (tio : termios2)
    (h0 : d.fails d.log.length = false) (h2 : d.fails (d.log.length + 2) = false)
    (h3 : d.fails (d.log.length + 3) = false) (h4 : d.fails (d.log.length + 4) = true) :
    libtty_setopt d fd speed databits stopbits parity hardflow tio =
      (-1, { d with
              line := framedLine d.line (expectedSettings databits stopbits parity hardflow 10 0),
              log := d.log ++ [Call.tcgetattr fd, Call.tcflush fd TCIOFLUSH,
                Call.tcsetattr fd TCSANOW (expectedSettings databits stopbits parity hardflow 10 0),
                Call.TCGETS2 fd,
                Call.TCSETS2 fd (finalLine
                  (expectedSettings databits stopbits parity hardflow 10 0) speed)],
              out := d.out ++ [Out.perror "TCSETS2", Out.perror "setbaudrate"] }) := by
  by_cases hh : hardflow = 0 <;>
  rcases hd with rfl | rfl | rfl | rfl <;>
  rcases hp with rfl | rfl | rfl | rfl | rfl | rfl <;>
  rcases hs with rfl | rfl <;>
  simp [libtty_setopt, libtty_setcustombaudrate, tcgetattr, tcflush_eq, tcsetattr, ioctl_TCGETS2,
    ioctl_TCSETS2, Tty.failing, Tty.record, Tty.print, h0, h2, h3, h4, hh, chr,
    expectedSettings, expectedCflag, expectedIflag, framedLine, finalLine, termios.bzero,
    bnot32] <;>
  (repeat' apply And.intro) <;>
  first | decide | congr 1

/-- The baud-rate step entered after a successful settings write, when its first
query fails: nothing is written. -/
theorem baud_step_query_failed (d : Tty) (fd speed : Int) (t : termios) (tio : termios2)
    (h0 : d.fails d.log.length = false) (h2 : d.fails (d.log.length + 2) = false)
    (h3 : d.fails (d.log.length + 3) = true) :
    libtty_setcustombaudrate (beforeBaudStep d fd t) fd speed tio =
      (-1, { d with
              line := framedLine d.line t,
              log := d.log ++ [Call.tcgetattr fd, Call.tcflush fd TCIOFLUSH,
                Call.tcsetattr fd TCSANOW t, Call.TCGETS2 fd],
              out := d.out ++ [Out.perror "TCGETS2"] }) := by
  rw [beforeBaudStep_eq d fd t h0 h2]
  simp [libtty_setcustombaudrate, ioctl_TCGETS2, Tty.failing, Tty.record, Tty.print, h3]

/-- The baud-rate step entered after a successful settings write, when its first
query succeeds and its write fails: the driver keeps what it held. -/
theorem baud_step_write_failed (d : Tty) (fd speed : Int) (t : termios) (tio : termios2)
    (h0 : d.fails d.log.length = false) (h2 : d.fails (d.log.length + 2) = false)
    (h3 : d.fails (d.log.length + 3) = false) (h4 : d.fails (d.log.length + 4) = true) :
    libtty_setcustombaudrate (beforeBaudStep d fd t) fd speed tio =
      (-1, { d with
              line := framedLine d.line t,
              log := d.log ++ [Call.tcgetattr fd, Call.tcflush fd TCIOFLUSH,
                Call.tcsetattr fd TCSANOW t, Call.TCGETS2 fd,
                Call.TCSETS2 fd (finalLine t speed)],
              out := d.out ++ [Out.perror "TCSETS2"] }) := by
  rw [beforeBaudStep_eq d fd t h0 h2]
  simp [libtty_setcustombaudrate, ioctl_TCGETS2, ioctl_TCSETS2, Tty.failing, Tty.record,
    Tty.print, h3, h4, framedLine, finalLine]

/-- C13: on a valid configuration, when the opening query and the settings write
(`tcsetattr`) succeed and the baud-rate step fails at its first query or at its
write, `libtty_setopt` returns -1 and ends in the state that failed step leaves,
plus its own diagnostic. There has been one `tcsetattr` and no later write that took
effect, so the driver holds the flag words and control characters of the new
configuration (VMIN 0, VTIME 10), and its input and output speed are those it held
when the baud-rate step began: the speeds the driver derived from the B0 selector of
the new control flags, 0, not the speeds from before the call. Nothing is rolled
back. -/
theorem C13_no_rollback (d : Tty) (fd speed databits stopbits parity hardflow : Int)
    (tio : termios2)
    (hd : validDatabits databits) (hp : validParity parity) (hs : validStopbits stopbits)
    (h0 : d.fails d.log.length = false) (h2 : d.fails (d.log.length + 2) = false)
    (hb : d.fails (d.log.length + 3) = true ∨
      (d.fails (d.log.length + 3) = false ∧ d.fails (d.log.length + 4) = true)) :
    (libtty_setopt d fd speed databits stopbits parity hardflow tio).1 = -1 ∧
    ∃ t, applied (issued d
          (libtty_setopt d fd speed databits stopbits parity hardflow tio).2) = [t] ∧
      t.c_cflag = expectedCflag databits stopbits parity hardflow ∧
      t.c_iflag = expectedIflag parity ∧
      (libtty_setcustombaudrate (beforeBaudStep d fd t) fd speed tio).1 = -1 ∧
      libtty_setopt d fd speed databits stopbits parity hardflow tio =
        (-1, (libtty_setcustombaudrate (beforeBaudStep d fd t) fd speed tio).2.print
          (Out.perror "setbaudrate")) ∧
      (libtty_setopt d fd speed databits stopbits parity hardflow tio).2.line.c_cflag
        = t.c_cflag ∧
      (libtty_setopt d fd speed databits stopbits parity hardflow tio).2.line.c_iflag
        = t.c_iflag ∧
      (libtty_setopt d fd speed databits stopbits parity hardflow tio).2.line.c_oflag
        = t.c_oflag ∧
      (libtty_setopt d fd speed databits stopbits parity hardflow tio).2.line.c_lflag
        = t.c_lflag ∧
      (libtty_setopt d fd speed databits stopbits parity hardflow tio).2.line.c_cc
        = t.c_cc.take KERNEL_NCCS ∧
      (libtty_setopt d fd speed databits stopbits parity hardflow tio).2.line.c_cc[VMIN]?
        = some 0 ∧
      (libtty_setopt d fd speed databits stopbits parity hardflow tio).2.line.c_cc[VTIME]?
        = some 10 ∧
      (libtty_setopt d fd speed databits stopbits parity hardflow tio).2.line.c_ispeed
        = (beforeBaudStep d fd t).line.c_ispeed ∧
      (libtty_setopt d fd speed databits stopbits parity hardflow tio).2.line.c_ospeed
        = (beforeBaudStep d fd t).line.c_ospeed ∧
      (libtty_setopt d fd speed databits stopbits parity hardflow tio).2.line.c_ispeed = 0 ∧
      (libtty_setopt d fd speed databits stopbits parity hardflow tio).2.line.c_ospeed
        = 0 := by
  obtain ⟨s1, s2⟩ := expected_speeds databits stopbits parity hardflow hd hp hs
    d.line.c_ispeed d.line.c_ospeed
  have hbefore := beforeBaudStep_eq d fd
    (expectedSettings databits stopbits parity hardflow 10 0) h0 h2
  rcases hb with h3 | ⟨h3, h4⟩
  · rw [setopt_baud_query_failed databits stopbits parity hardflow hd hp hs d fd speed tio
      h0 h2 h3]
    refine ⟨rfl, expectedSettings databits stopbits parity hardflow 10 0, ?_, rfl, rfl, ?_, ?_,
      rfl, rfl, rfl, rfl, rfl, rfl, rfl, ?_, ?_, s1, s2⟩
    · simp [issued, applied]
    · rw [baud_step_query_failed d fd speed _ tio h0 h2 h3]
    · rw [baud_step_query_failed d fd speed _ tio h0 h2 h3]
      simp [Tty.print]
    · rw [hbefore]
    · rw [hbefore]
  · rw [setopt_baud_write_failed databits stopbits parity hardflow hd hp hs d fd speed tio
      h0 h2 h3 h4]
    refine ⟨rfl, expectedSettings databits stopbits parity hardflow 10 0, ?_, rfl, rfl, ?_, ?_,
      rfl, rfl, rfl, rfl, rfl, rfl, rfl, ?_, ?_, s1, s2⟩
    · simp [issued, applied]
    · rw [baud_step_write_failed d fd speed _ tio h0 h2 h3 h4]
    · rw [baud_step_write_failed d fd speed _ tio h0 h2 h3 h4]
      simp [Tty.print]
    · rw [hbefore]
    · rw [hbefore]

/-- C13 at a concrete run: a port at 9600 baud is asked for 115200 baud, 7 data bits,
even parity, 2 stop bits, and the fourth device call, the first query of the
baud-rate step, fails; the result is -1, the control flags are the new ones, and the
output speed is the 0 that the settings write left, neither 9600 nor 115200. -/
theorem C13_no_rollback_witness :
    validDatabits 7 ∧ validParity (chr 'e') ∧ validStopbits 2 ∧
    (Tty.faulty termios2.at9600 (fun n => decide (n = 3))).fails
      (Tty.faulty termios2.at9600 (fun n => decide (n = 3))).log.length = false ∧
    (Tty.faulty termios2.at9600 (fun n => decide (n = 3))).fails
      ((Tty.faulty termios2.at9600 (fun n => decide (n = 3))).log.length + 2) = false ∧
    (Tty.faulty termios2.at9600 (fun n => decide (n = 3))).fails
      ((Tty.faulty termios2.at9600 (fun n => decide (n = 3))).log.length + 3) = true ∧
    (libtty_setopt (Tty.faulty termios2.at9600 (fun n => decide (n = 3)))
      3 115200 7 2 (chr 'e') 0 termios2.zero).1 = -1 ∧
    (libtty_setopt (Tty.faulty termios2.at9600 (fun n => decide (n = 3)))
      3 115200 7 2 (chr 'e') 0 termios2.zero).2.line.c_cflag = 0x9E0 ∧
    (libtty_setopt (Tty.faulty termios2.at9600 (fun n => decide (n = 3)))
      3 115200 7 2 (chr 'e') 0 termios2.zero).2.line.c_ospeed = 0 ∧
    (beforeBaudStep (Tty.faulty termios2.at9600 (fun n => decide (n = 3))) 3
      (expectedSettings 7 2 (chr 'e') 0 10 0)).line.c_ospeed = 0 ∧
    termios2.at9600.c_ospeed = 9600 :=
  ⟨by decide, by decide, by decide, rfl, rfl, rfl,
   (C13_no_rollback (Tty.faulty termios2.at9600 (fun n => decide (n = 3)))
      3 115200 7 2 (chr 'e') 0 termios2.zero (by decide) (by decide) (by decide)
      rfl rfl (Or.inl rfl)).1,
   by decide, by decide, by decide, by decide⟩

end TtyUart
